import Mathlib

/-!
# Sisimpur — verification of spec claims against the source

Shallow embedding of the parts of the Sisimpur Django codebase that the
frozen claims are about:

* `apps/brain/provider.py` — `APIService._make_request` (n8n webhook
  response normalization and retry loop);
* `apps/brain/processor.py` — `APIDocumentProcessor._extract_qa_pairs`
  and `process_with_job`;
* `apps/brain/config.py` — `API_CONFIG`;
* `apps/dashboard/views.py` / `apps/dashboard/api_views.py` — the exam
  and flashcard session state machine (`start_exam`, `exam_session`,
  `answer_question`, `submit_exam`, `start_flashcard`,
  `flashcard_session`, `advance_flashcard`, `store_evaluation_result`).

Python JSON values are embedded as the inductive `JVal`; Python dicts are
association lists preserving insertion order with unique keys (lookup is
first match).  Django model methods that live in `models.py` files absent
from the source tree (`mark_completed`, `mark_failed`, `is_expired`,
`calculate_score`) are modelled from the spec where noted.
-/

namespace Sisimpur

/-- Embedded Python/JSON value.  Numbers are integers (all JSON numbers
relevant to the claims — ids, scores — are integral). -/
inductive JVal where
  | jnull : JVal
  | jbool : Bool → JVal
  | jnum : Int → JVal
  | jstr : String → JVal
  | jarr : List JVal → JVal
  | jobj : List (String × JVal) → JVal


namespace JVal

/-- Python truthiness of a value: `bool(v)`. -/
def truthy : JVal → Bool
  | jnull => false
  | jbool b => b
  | jnum n => n ≠ 0
  | jstr s => s ≠ ""
  | jarr xs => !xs.isEmpty
  | jobj fs => !fs.isEmpty

/-- `d.get(k)` on a Python dict (association list, first match). -/
def lookup (k : String) : List (String × JVal) → Option JVal
  | [] => none
  | (k', v) :: rest => if k' = k then some v else lookup k rest

/-- `k in d` on a Python dict. -/
def hasKey (k : String) (fs : List (String × JVal)) : Bool :=
  (lookup k fs).isSome

/-- Is the value a Python dict? -/
def isObj : JVal → Bool
  | jobj _ => true
  | _ => false

/-- Fields of a dict (empty for non-dicts, used only under `isObj`). -/
def fields : JVal → List (String × JVal)
  | jobj fs => fs
  | _ => []

end JVal

open JVal

/-!
## `APIService._make_request` — 200-response normalization
(provider.py lines 95–145)

The Python code, on `response.status_code == 200`, parses
`raw = response.json()` (or `None` on parse failure) and normalizes it.
`raw : Option JVal` — `none` for a body that is not JSON.
-/

/-- State after the normalization branch: the `normalized_data` dict
(`none` when no branch produced a dict) and the raw `normalized_success`
value (a Python value, later coerced with `bool(...)`). -/
structure NormState where
  data : Option (List (String × JVal))
  success : JVal


/-- Normalization of a parsed 200-response body, translated line by line
from provider.py lines 105–134.  `normalized_success` starts as `True`;
`normalized_data` starts as `None`. -/
def normalizeRaw (raw : Option JVal) : NormState :=
  match raw with
  | some (jarr (first :: _)) =>
      -- `isinstance(raw, list) and raw` and `first = raw[0]`
      match first with
      | jobj fl =>
          -- `output = first.get('output') or first`
          let output : JVal :=
            match JVal.lookup "output" fl with
            | some v => if v.truthy then v else jobj fl
            | none => jobj fl
          match output with
          | jobj ofl =>
              let data :=
                match JVal.lookup "data" ofl with
                | some (jobj dl) => some dl
                | _ => if JVal.hasKey "questions" ofl then some ofl else none
              { data := data,
                success := (JVal.lookup "success" ofl).getD (jbool true) }
          | _ => { data := none, success := jbool true }
      | _ => { data := none, success := jbool true }
  | some (jobj fl) =>
      -- `'output' in raw and isinstance(raw.get('output'), dict)`
      match JVal.lookup "output" fl with
      | some (jobj ofl) =>
          -- `output = raw.get('output') or {}` (a dict either way); the
          -- `elif 'questions' in output` and trailing `else` branches both
          -- assign `normalized_data = output`
          let data :=
            match JVal.lookup "data" ofl with
            | some (jobj dl) => some dl
            | _ => some ofl
          { data := data,
            success := (JVal.lookup "success" ofl).getD (jbool true) }
      | _ =>
          match JVal.lookup "data" fl with
          | some (jobj dl) =>
              { data := some dl,
                success := (JVal.lookup "success" fl).getD (jbool true) }
          | _ => { data := some fl, success := jbool true }
  | _ => { data := none, success := jbool true }

/-- Result dict of `_make_request` on a 200 response (provider.py lines
136–145): `success = bool(normalized_success)`, `data` is the normalized
dict or the fallback `{'raw': raw}`. -/
structure RequestResult where
  success : Bool
  data : JVal


/-- `raw` as stored in the fallback dict: `None` becomes JSON null. -/
def rawAsJVal (raw : Option JVal) : JVal := raw.getD jnull

/-- `_make_request`'s return value for a 200 response. -/
def makeRequest200 (raw : Option JVal) : RequestResult :=
  let st := normalizeRaw raw
  { success := st.success.truthy,
    data := jobj (st.data.getD [("raw", rawAsJVal raw)]) }

/-- The three n8n response shapes documented in provider.py lines 96–99,
with `d` the inner dict holding the questions list and `sf` the `success`
flag found in the payload (`none` when absent):
1. `{success: sf, data: d}` where `d` has a `questions` list;
2. `[{output: {success: sf, data: d}}, ...]`;
3. `{questions: [...]}` — questions at top level, no wrapper keys. -/
def docShape (raw : Option JVal) (d : List (String × JVal)) (sf : Option Bool) : Prop :=
  (∃ fl, raw = some (jobj fl) ∧
      JVal.lookup "output" fl = none ∧
      JVal.lookup "data" fl = some (jobj d) ∧
      JVal.hasKey "questions" d = true ∧
      JVal.lookup "success" fl = sf.map jbool) ∨
  (∃ fl ofl rest, raw = some (jarr (jobj fl :: rest)) ∧
      JVal.lookup "output" fl = some (jobj ofl) ∧
      JVal.lookup "data" ofl = some (jobj d) ∧
      JVal.hasKey "questions" d = true ∧
      JVal.lookup "success" ofl = sf.map jbool) ∨
  (raw = some (jobj d) ∧ sf = none ∧
      JVal.hasKey "questions" d = true ∧
      JVal.lookup "output" d = none ∧
      JVal.lookup "data" d = none ∧
      JVal.lookup "success" d = none)

/-- An association list of a dict occurring in the payload at one of the
positions `_make_request` inspects: the top-level dict, the first element
of a top-level list, or the dict under their `output` key. -/
inductive PayloadDict : Option JVal → List (String × JVal) → Prop where
  | top (fl : List (String × JVal)) : PayloadDict (some (jobj fl)) fl
  | arrHead (fl : List (String × JVal)) (rest : List JVal) :
      PayloadDict (some (jarr (jobj fl :: rest))) fl
  | outputOfTop (fl ofl : List (String × JVal)) :
      JVal.lookup "output" fl = some (jobj ofl) →
      PayloadDict (some (jobj fl)) ofl
  | outputOfHead (fl ofl : List (String × JVal)) (rest : List JVal) :
      JVal.lookup "output" fl = some (jobj ofl) →
      PayloadDict (some (jarr (jobj fl :: rest))) ofl

/-- A `success` flag inside the payload is falsy (Python-falsy value under
a `success` key of a dict the normalization can read). -/
def successFlagFalsy (raw : Option JVal) : Prop :=
  ∃ fs v, PayloadDict raw fs ∧ JVal.lookup "success" fs = some v ∧ v.truthy = false

/-- The non-normalizable example bodies of claim C10: not JSON, a bare
string, a number, an empty list, or a list whose first element is not a
dict. -/
def nonNormalizableExample (raw : Option JVal) : Prop :=
  raw = none ∨ (∃ s, raw = some (jstr s)) ∨ (∃ n, raw = some (jnum n)) ∨
  raw = some (jarr []) ∨
  (∃ x xs, raw = some (jarr (x :: xs)) ∧ x.isObj = false)

/-!
## `APIDocumentProcessor._extract_qa_pairs` (processor.py lines 130–195)
-/

/-- The `output`-wrapper unwrapping at the top of `_extract_qa_pairs`
(processor.py lines 145–150).  `api_data.get('output') or {}` and
`output.get('data') or {}` coincide with the looked-up dict since an
empty Python dict and an empty association list agree. -/
def unwrapOutput (apiData : List (String × JVal)) : List (String × JVal) :=
  match JVal.lookup "output" apiData with
  | some (jobj ofl) =>
      match JVal.lookup "data" ofl with
      | some (jobj dl) => dl
      | _ => ofl
  | _ => apiData

/-- Python `==` between a JSON value and a string (used by `in` on a
list of values).  Only equal strings compare equal. -/
def pyEqStr (v : JVal) (s : String) : Bool :=
  match v with
  | jstr t => t = s
  | _ => false

/-- Python `==` between a JSON value and an int.  Python `bool` is an
`int` subtype, so `True == 1` and `False == 0`. -/
def pyEqInt (v : JVal) (n : Int) : Bool :=
  match v with
  | jnum m => m = n
  | jbool b => (if b then (1 : Int) else 0) = n
  | _ => false

/-- The fallback scan of `_extract_qa_pairs` (processor.py lines
160–166): the first dict value that is a non-empty list whose first
element is a dict carrying a `question` or `q` key. -/
def scanQuestions : List (String × JVal) → List JVal
  | [] => []
  | (_, jarr (jobj fl :: rest)) :: more =>
      if JVal.hasKey "question" fl || JVal.hasKey "q" fl then jobj fl :: rest
      else scanQuestions more
  | _ :: more => scanQuestions more

/-- Locating the question list (processor.py lines 152–166).  `none`
models the paths where CPython raises (`'questions' in x` on a
non-container, or indexing a list with a string key), which the
enclosing `except` turns into an empty result. -/
def findQuestionsVal (d : List (String × JVal)) : Option JVal :=
  match JVal.lookup "questions" d with
  | some q => some q
  | none =>
    match JVal.lookup "qa_pairs" d with
    | some q => some q
    | none =>
      match JVal.lookup "results" d with
      | some (jobj rl) =>
          match JVal.lookup "questions" rl with
          | some q => some q
          | none => some (jarr (scanQuestions d))
      | some (jarr xs) =>
          if xs.any (fun v => pyEqStr v "questions") then none
          else some (jarr (scanQuestions d))
      | some (jstr s) =>
          if "questions".toList.IsInfix s.toList then none
          else some (jarr (scanQuestions d))
      | some _ => none
      | none => some (jarr (scanQuestions d))

/-- `item.get('question', item.get('q', ''))`. -/
def itemQuestion (fl : List (String × JVal)) : JVal :=
  (JVal.lookup "question" fl).getD ((JVal.lookup "q" fl).getD (jstr ""))

/-- The normalized Q&A dict built for each question item
(processor.py lines 170–181). -/
structure QAPair where
  question : JVal
  answer : JVal
  questionType : JVal
  options : JVal
  correctOption : JVal
  confidenceScore : JVal
  explanation : JVal
  difficulty : JVal
  topic : JVal
  metadata : JVal

/-- Normalization of one question item (processor.py lines 170–181;
`confidence_score` defaults to the float `0.0`, embedded as the
integer 0). -/
def normalizeItem (fl : List (String × JVal)) : QAPair :=
  { question := itemQuestion fl,
    answer := (JVal.lookup "answer" fl).getD ((JVal.lookup "a" fl).getD (jstr "")),
    questionType := (JVal.lookup "question_type" fl).getD (jstr "MULTIPLECHOICE"),
    options := (JVal.lookup "options" fl).getD (jarr []),
    correctOption := (JVal.lookup "correct_option" fl).getD (jstr ""),
    confidenceScore := (JVal.lookup "confidence_score" fl).getD (jnum 0),
    explanation := (JVal.lookup "explanation" fl).getD (jstr ""),
    difficulty := (JVal.lookup "difficulty" fl).getD (jstr "medium"),
    topic := (JVal.lookup "topic" fl).getD (jstr ""),
    metadata := (JVal.lookup "metadata" fl).getD (jobj []) }

/-- The per-item loop (processor.py lines 169–188): dict items with a
falsy question text are skipped; a non-dict item makes `item.get`
raise (`none`), which the enclosing `except` turns into `[]`. -/
def processItems : List JVal → Option (List QAPair)
  | [] => some []
  | jobj fl :: rest =>
      (processItems rest).map
        (fun acc => if (itemQuestion fl).truthy then normalizeItem fl :: acc else acc)
  | _ :: _ => none

/-- `_extract_qa_pairs` in full.  Any exceptional path returns `[]`
(processor.py lines 193–195); a non-list `questions` value always
raises while iterating (dict keys and string characters have no
`.get`). -/
def extractQaPairs (apiData : List (String × JVal)) : List QAPair :=
  let d := unwrapOutput apiData
  match findQuestionsVal d with
  | some (jarr items) => (processItems items).getD []
  | some _ => []
  | none => []

/-!
## `APIService._make_request` — retry loop (provider.py lines 77–189,
config.py lines 36–42)
-/

/-- `API_CONFIG['max_retries']`. -/
def maxRetries : Nat := 3

/-- `API_CONFIG['retry_delay']` (seconds). -/
def retryDelay : Nat := 1

/-- Outcome of one attempt at the HTTP call: the three handled
exception classes, or a response with its status code, parsed body and
text. -/
inductive AttemptOutcome where
  | timeout : AttemptOutcome
  | connError : AttemptOutcome
  | exc : String → AttemptOutcome
  | http : Nat → Option JVal → String → AttemptOutcome

/-- Whether the attempt raised one of the caught exceptions. -/
def AttemptOutcome.isExceptional : AttemptOutcome → Bool
  | .timeout => true
  | .connError => true
  | .exc _ => true
  | .http _ _ _ => false

/-- The `error` string `_make_request` reports for a final failed
attempt. -/
def AttemptOutcome.errorText : AttemptOutcome → String
  | .timeout => "Request timeout"
  | .connError => "Connection error"
  | .exc m => m
  | .http st _ text => "API Error: " ++ toString st ++ " - " ++ text

/-- The value `_make_request` returns (success flag, normalized data
when present, error string when present), plus instrumentation: how
many attempts were made and the `time.sleep` durations performed. -/
structure LoopResult where
  success : Bool
  data : Option JVal
  error : Option String
  attemptsMade : Nat
  sleeps : List Nat

/-- The retry loop body from attempt number `attempt`, with
`fuel = maxRetries - attempt` iterations left.  Mirrors provider.py
lines 77–189: a response returns immediately (200 → normalization,
otherwise an API-error dict); a caught exception on the last attempt
(`attempt == max_retries - 1`) returns the failure dict, and earlier
ones sleep `retry_delay * (attempt + 1)` and continue. -/
def runAttempts (outcomes : Nat → AttemptOutcome) (attempt : Nat) :
    Nat → List Nat → LoopResult
  | 0, sleeps =>
      { success := false, data := none, error := some "Max retries exceeded",
        attemptsMade := attempt, sleeps := sleeps }
  | fuel + 1, sleeps =>
      match outcomes attempt with
      | .http 200 body _ =>
          let r := makeRequest200 body
          { success := r.success, data := some r.data, error := none,
            attemptsMade := attempt + 1, sleeps := sleeps }
      | .http st _ text =>
          { success := false, data := none,
            error := some (AttemptOutcome.errorText (.http st none text)),
            attemptsMade := attempt + 1, sleeps := sleeps }
      | .timeout =>
          if attempt = maxRetries - 1 then
            { success := false, data := none,
              error := some AttemptOutcome.timeout.errorText,
              attemptsMade := attempt + 1, sleeps := sleeps }
          else
            runAttempts outcomes (attempt + 1) fuel
              (sleeps ++ [retryDelay * (attempt + 1)])
      | .connError =>
          if attempt = maxRetries - 1 then
            { success := false, data := none,
              error := some AttemptOutcome.connError.errorText,
              attemptsMade := attempt + 1, sleeps := sleeps }
          else
            runAttempts outcomes (attempt + 1) fuel
              (sleeps ++ [retryDelay * (attempt + 1)])
      | .exc m =>
          if attempt = maxRetries - 1 then
            { success := false, data := none,
              error := some (AttemptOutcome.exc m).errorText,
              attemptsMade := attempt + 1, sleeps := sleeps }
          else
            runAttempts outcomes (attempt + 1) fuel
              (sleeps ++ [retryDelay * (attempt + 1)])

/-- `_make_request` as a function of the per-attempt outcomes. -/
def makeRequestModel (outcomes : Nat → AttemptOutcome) : LoopResult :=
  runAttempts outcomes 0 maxRetries []

/-!
## `ProcessingJob` and `process_with_job` (processor.py lines 238–322,
services.py lines 27–69)

`apps/brain/models.py` is not part of the source tree; the
`ProcessingJob` fields and the `mark_completed`/`mark_failed`
transitions are modelled from the spec.
-/

/-- Modelled from the spec: `ProcessingJob` — "fields for status
(pending/processing/completed/failed), language, question_type, file
references"; only the fields the claims touch are kept. -/
structure Job where
  status : String
  errorMessage : String
  hasOutputFile : Bool

/-- The documented `ProcessingJob` status values. -/
def jobStatusValues : List String := ["pending", "processing", "completed", "failed"]

/-- Modelled from the spec: `ProcessingJob.mark_completed` — the
transition into the `completed` terminal state. -/
def markCompleted (j : Job) : Job :=
  { j with status := "completed" }

/-- Modelled from the spec: `ProcessingJob.mark_failed` — the
transition into the `failed` terminal state, recording the error. -/
def markFailed (j : Job) (err : String) : Job :=
  { j with status := "failed", errorMessage := err }

/-- Outcome of the processing pipeline inside `process_with_job`:
either the Q&A pairs extracted, saved and counted, or the message of
the exception some step raised (missing file/text, API failure, no
Q&A pairs, file I/O). -/
inductive JobOutcome where
  | ok : Nat → JobOutcome
  | raised : String → JobOutcome

/-- The dict `process_with_job` returns. -/
structure ProcResult where
  success : Bool
  qaCount : Nat
  error : Option String

/-- `APIDocumentProcessor.process_with_job` (processor.py lines
238–322): sets status to `processing`, runs the pipeline, and ends
with `mark_completed()` after the Q&A pairs and output file are
recorded, or with `mark_failed(str(e))` and a `success: False` dict
when any step raises. -/
def processWithJob (job : Job) (outcome : JobOutcome) : Job × ProcResult :=
  let j1 := { job with status := "processing" }
  match outcome with
  | .ok n =>
      (markCompleted { j1 with hasOutputFile := true },
       { success := true, qaCount := n, error := none })
  | .raised m =>
      (markFailed j1 m,
       { success := false, qaCount := 0, error := some m })

/-- `BackgroundProcessor._process_job_thread` (services.py lines
27–69) once the job was fetched: run `process_with_job`; a critical
exception outside it is caught and ends in
`mark_failed("System error: ...")`. -/
def processJobThread (job : Job) (critical : Option String) (outcome : JobOutcome) : Job :=
  match critical with
  | some m => markFailed job ("System error: " ++ m)
  | none => (processWithJob job outcome).1

/-!
## Exam and flashcard session state machine
(`apps/dashboard/views.py`, `apps/dashboard/api_views.py`)

`apps/dashboard/models.py` is not part of the source tree; the session
fields are modelled from the spec ("ephemeral per-attempt state
(current index, shuffled question/card order, time limit), scored on
completion").  `calculate_score()` is modelled as setting a
`scoreComputed` flag; `is_expired()` is a time-dependent input.
-/

/-- `ExamSession` state, fields limited to what the claims touch.  The
index is an `Int`, as a Python int, so that out-of-range decrements
would be visible. -/
structure ExamSession where
  status : String
  currentQuestionIndex : Int
  questionsOrder : List Int
  allowNavigation : Bool
  completedAtSet : Bool
  scoreComputed : Bool

/-- Modelled from the spec: `ExamSession.calculate_score` — sessions
are "scored on completion"; the model records that it ran. -/
def calculateScore (s : ExamSession) : ExamSession :=
  { s with scoreComputed := true }

/-- The navigation/submission step shared verbatim by the POST branch
of `exam_session` (views.py lines 583–599) and by `answer_question`
(api_views.py lines 364–377): `next` guarded by
`current_question_index < len(questions_order) - 1`, `previous` by
`current_question_index > 0 and allow_navigation`, `submit` completes
and scores the session. -/
def examNavigate (s : ExamSession) (action : String) : ExamSession :=
  if action = "next" ∧ s.currentQuestionIndex < (s.questionsOrder.length : Int) - 1 then
    { s with currentQuestionIndex := s.currentQuestionIndex + 1 }
  else if action = "previous" ∧ s.currentQuestionIndex > 0 ∧ s.allowNavigation then
    { s with currentQuestionIndex := s.currentQuestionIndex - 1 }
  else if action = "submit" then
    calculateScore { s with status := "completed", completedAtSet := true }
  else s

/-- What a request to the `exam_session` view produces besides the new
session state. -/
inductive ExamResponse where
  | redirectResult : ExamResponse
  | renderQuestion : Option Int → ExamResponse

/-- The dispatch prefix of the `exam_session` view (views.py lines
507–541): inactive sessions redirect to the result page; an expired
active session (`is_expired()` true, passed as `expired`) is marked
`expired`, stamped, scored and redirected; an index past the end
completes the session; otherwise the current question is served. -/
def examSessionGet (s : ExamSession) (expired : Bool) : ExamResponse × ExamSession :=
  if s.status ≠ "active" then (.redirectResult, s)
  else if expired then
    (.redirectResult, calculateScore { s with status := "expired", completedAtSet := true })
  else if s.currentQuestionIndex ≥ (s.questionsOrder.length : Int) then
    (.redirectResult, calculateScore { s with status := "completed", completedAtSet := true })
  else
    (.renderQuestion (s.questionsOrder.get? s.currentQuestionIndex.toNat), s)

/-- The `submit_exam` view (views.py lines 635–657) and its REST twin
(api_views.py lines 400–418): an active session is completed, stamped
and scored; others are left alone. -/
def submitExam (s : ExamSession) : ExamSession :=
  if s.status = "active" then
    calculateScore { s with status := "completed", completedAtSet := true }
  else s

/-- `FlashcardSession` state, fields limited to what the claims touch.
`scoreComputed` records whether any score computation ran on the
session (none exists in the code). -/
structure FlashcardSession where
  status : String
  currentCardIndex : Int
  cardsOrder : List Int
  cardsStudied : Int
  completedAtSet : Bool
  scoreComputed : Bool

/-- The card-advance step shared by the POST branch of
`flashcard_session` (views.py lines 849–877) and `advance_flashcard`
(api_views.py lines 645–663): increment the index and studied count;
when the index passes the end, the session becomes `completed` with
`completed_at` set — no score is computed. -/
def advanceFlashcard (s : FlashcardSession) : FlashcardSession :=
  let s1 := { s with currentCardIndex := s.currentCardIndex + 1,
                     cardsStudied := s.cardsStudied + 1 }
  if s1.currentCardIndex ≥ (s1.cardsOrder.length : Int) then
    { s1 with status := "completed", completedAtSet := true }
  else s1

/-- The dispatch prefix of the `flashcard_session` view (views.py
lines 833–847): non-active sessions redirect to the completion page;
an index past the end completes the session (`completed_at` set, no
score); otherwise the current card is served.  The Bool is true when
the response is a redirect to the completion page. -/
def flashcardSessionGet (s : FlashcardSession) : Bool × FlashcardSession :=
  if s.status ≠ "active" then (true, s)
  else if s.currentCardIndex ≥ (s.cardsOrder.length : Int) then
    (true, { s with status := "completed", completedAtSet := true })
  else (false, s)

/-!
## `start_exam` / `start_flashcard`
(views.py lines 423–490 and 774–818, api_views.py lines 516–551)
-/

/-- Modelled from the spec: the `ExamConfiguration` singleton fields
the session-creation views read. -/
structure ExamConfig where
  defaultTimePerQuestionMinutes : Nat
  allowQuestionNavigation : Bool
  defaultFlashcardTimeSeconds : Nat
  autoAdvanceFlashcards : Bool

/-- The fields of the `ExamSession` row `start_exam` creates. -/
structure CreatedExam where
  totalQuestions : Nat
  timeLimitMinutes : Nat
  allowNavigation : Bool
  questionsOrder : List Int

/-- The fields of the `FlashcardSession` row `start_flashcard`
creates. -/
structure CreatedFlashcard where
  totalCards : Nat
  timePerCardSeconds : Nat
  autoAdvance : Bool
  cardsOrder : List Int

/-- `start_exam` (views.py lines 423–490; the REST twin is
api_views.py `start_exam`): refuse non-completed jobs and jobs without
questions, then create a session whose order is the shuffled id list
(`random.shuffle` externalized: `shuffled` is the shuffler's output on
`qaIds`), with `total_questions = len(questions_list)` and
`time_limit_minutes = len(questions_list) *
config.default_time_per_question_minutes`. -/
def startExam (jobStatus : String) (qaIds shuffled : List Int) (cfg : ExamConfig) :
    Option CreatedExam :=
  if jobStatus ≠ "completed" then none
  else if qaIds.isEmpty then none
  else some
    { totalQuestions := shuffled.length,
      timeLimitMinutes := shuffled.length * cfg.defaultTimePerQuestionMinutes,
      allowNavigation := cfg.allowQuestionNavigation,
      questionsOrder := shuffled }

/-- `start_flashcard` (views.py lines 774–818, api_views.py lines
516–551): same guards; the created session's order is the shuffled id
list with `total_cards = len(cards_list)`. -/
def startFlashcard (jobStatus : String) (qaIds shuffled : List Int) (cfg : ExamConfig) :
    Option CreatedFlashcard :=
  if jobStatus ≠ "completed" then none
  else if qaIds.isEmpty then none
  else some
    { totalCards := shuffled.length,
      timePerCardSeconds := cfg.defaultFlashcardTimeSeconds,
      autoAdvance := cfg.autoAdvanceFlashcards,
      cardsOrder := shuffled }

/-!
## `store_evaluation_result` — question index (views.py lines 1157–1160)
-/

/-- Python `int(q_id)` for the values that can reach the call. -/
def pyToInt : JVal → Int
  | jnum n => n
  | jbool b => if b then 1 else 0
  | jstr s => (s.toInt?).getD 0
  | _ => 0

/-- The `question_index` computation of `store_evaluation_result`
(views.py lines 1157–1160): `question_index = 0`, then
`if q_id in exam_session.questions_order: question_index =
exam_session.questions_order.index(int(q_id))`.  Membership uses
Python `==` between the JSON `q_id` and the stored integer ids. -/
def storeEvalQuestionIndex (qid : JVal) (order : List Int) : Nat :=
  if order.any (fun x => pyEqInt qid x) then order.indexOf (pyToInt qid)
  else 0

/-- The question list of claim C2 is reachable under one of the
accepted keys of `_extract_qa_pairs` (after the `output` unwrap):
`questions`, `qa_pairs`, `results.questions`, or the fallback scan
finding a non-empty list of dicts with a `question`/`q` key. -/
def questionsReachable (apiData : List (String × JVal))
    (items : List (List (String × JVal))) : Prop :=
  JVal.lookup "questions" (unwrapOutput apiData) = some (jarr (items.map jobj)) ∨
  (JVal.lookup "questions" (unwrapOutput apiData) = none ∧
    JVal.lookup "qa_pairs" (unwrapOutput apiData) = some (jarr (items.map jobj))) ∨
  (JVal.lookup "questions" (unwrapOutput apiData) = none ∧
    JVal.lookup "qa_pairs" (unwrapOutput apiData) = none ∧
    ∃ rl, JVal.lookup "results" (unwrapOutput apiData) = some (jobj rl) ∧
      JVal.lookup "questions" rl = some (jarr (items.map jobj))) ∨
  (JVal.lookup "questions" (unwrapOutput apiData) = none ∧
    JVal.lookup "qa_pairs" (unwrapOutput apiData) = none ∧
    (JVal.lookup "results" (unwrapOutput apiData) = none ∨
      ∃ rl, JVal.lookup "results" (unwrapOutput apiData) = some (jobj rl) ∧
        JVal.lookup "questions" rl = none) ∧
    scanQuestions (unwrapOutput apiData) = items.map jobj)

/-!
## Helper lemmas
-/

theorem processItems_map_jobj (items : List (List (String × JVal))) :
    processItems (items.map jobj) =
      some ((items.filter (fun fl => (itemQuestion fl).truthy)).map normalizeItem) := by
  induction items with
  | nil => rfl
  | cons fl rest ih =>
      simp only [List.map_cons, processItems, ih, Option.map_some', List.filter_cons]
      by_cases h : (itemQuestion fl).truthy <;> simp [h]

theorem indexOf_first_occurrence {n : Int} {l : List Int} (h : n ∈ l) :
    l.get? (l.indexOf n) = some n ∧ ∀ j < l.indexOf n, l.get? j ≠ some n := by
  induction l with
  | nil => cases h
  | cons a rest ih =>
      by_cases ha : a = n
      · subst ha
        simp [List.indexOf_cons_self]
      · have hmem : n ∈ rest := by
          rcases List.mem_cons.mp h with h' | h'
          · exact absurd h'.symm ha
          · exact h'
        have hne : (a == n) = false := by simp [ha]
        have hidx : (a :: rest).indexOf n = rest.indexOf n + 1 := by
          simp [List.indexOf_cons, hne]
        rw [hidx]
        obtain ⟨h1, h2⟩ := ih hmem
        constructor
        · simpa using h1
        · intro j hj
          cases j with
          | zero => simp [ha]
          | succ k =>
              have hk : k < rest.indexOf n := by omega
              simpa using h2 k hk

theorem runAttempts_attempts_le (outcomes : Nat → AttemptOutcome) :
    ∀ (fuel attempt : Nat) (sleeps : List Nat),
      (runAttempts outcomes attempt fuel sleeps).attemptsMade ≤ attempt + fuel := by
  intro fuel
  induction fuel with
  | zero => intro attempt sleeps; simp [runAttempts]
  | succ k ih =>
      intro attempt sleeps
      rcases houtcome : outcomes attempt with _ | _ | m | ⟨st, body, text⟩
      · simp only [runAttempts, houtcome]
        split
        · simp
        · exact le_trans (ih (attempt + 1) _) (by omega)
      · simp only [runAttempts, houtcome]
        split
        · simp
        · exact le_trans (ih (attempt + 1) _) (by omega)
      · simp only [runAttempts, houtcome]
        split
        · simp
        · exact le_trans (ih (attempt + 1) _) (by omega)
      · by_cases h200 : st = 200
        · subst h200
          simp [runAttempts, houtcome]
        · simp [runAttempts, houtcome, h200]

theorem normalizeRaw_success_source (raw : Option JVal) :
    (normalizeRaw raw).success = jbool true ∨
    ∃ fs, PayloadDict raw fs ∧
      (normalizeRaw raw).success = (JVal.lookup "success" fs).getD (jbool true) := by
  rcases raw with _ | v
  · exact Or.inl rfl
  rcases v with _ | b | n | s | xs | fl
  · exact Or.inl rfl
  · exact Or.inl rfl
  · exact Or.inl rfl
  · exact Or.inl rfl
  · rcases xs with _ | ⟨x, rest⟩
    · exact Or.inl rfl
    rcases x with _ | b | n | s | xs2 | fl
    · exact Or.inl rfl
    · exact Or.inl rfl
    · exact Or.inl rfl
    · exact Or.inl rfl
    · exact Or.inl rfl
    · rcases hout : JVal.lookup "output" fl with _ | ov
      · refine Or.inr ⟨fl, PayloadDict.arrHead fl rest, ?_⟩
        simp [normalizeRaw, hout]
      · by_cases htr : ov.truthy
        · rcases ov with _ | b | n | s | xs2 | ofl
          · simp [JVal.truthy] at htr
          · refine Or.inl ?_
            simp [normalizeRaw, hout, htr]
          · refine Or.inl ?_
            simp [normalizeRaw, hout, htr]
          · refine Or.inl ?_
            simp [normalizeRaw, hout, htr]
          · refine Or.inl ?_
            simp [normalizeRaw, hout, htr]
          · refine Or.inr ⟨ofl, PayloadDict.outputOfHead fl ofl rest hout, ?_⟩
            simp [normalizeRaw, hout, htr]
        · refine Or.inr ⟨fl, PayloadDict.arrHead fl rest, ?_⟩
          simp [normalizeRaw, hout, htr]
  · rcases hout : JVal.lookup "output" fl with _ | ov
    · rcases hdata : JVal.lookup "data" fl with _ | dv
      · refine Or.inl ?_
        simp [normalizeRaw, hout, hdata]
      · rcases dv with _ | b | n | s | xs2 | dl
        · exact Or.inl (by simp [normalizeRaw, hout, hdata])
        · exact Or.inl (by simp [normalizeRaw, hout, hdata])
        · exact Or.inl (by simp [normalizeRaw, hout, hdata])
        · exact Or.inl (by simp [normalizeRaw, hout, hdata])
        · exact Or.inl (by simp [normalizeRaw, hout, hdata])
        · refine Or.inr ⟨fl, PayloadDict.top fl, ?_⟩
          simp [normalizeRaw, hout, hdata]
    · rcases ov with _ | b | n | s | xs2 | ofl
      · rcases hdata : JVal.lookup "data" fl with _ | dv
        · exact Or.inl (by simp [normalizeRaw, hout, hdata])
        · rcases dv with _ | b | n | s | xs2 | dl
          · exact Or.inl (by simp [normalizeRaw, hout, hdata])
          · exact Or.inl (by simp [normalizeRaw, hout, hdata])
          · exact Or.inl (by simp [normalizeRaw, hout, hdata])
          · exact Or.inl (by simp [normalizeRaw, hout, hdata])
          · exact Or.inl (by simp [normalizeRaw, hout, hdata])
          · refine Or.inr ⟨fl, PayloadDict.top fl, ?_⟩
            simp [normalizeRaw, hout, hdata]
      · rcases hdata : JVal.lookup "data" fl with _ | dv
        · exact Or.inl (by simp [normalizeRaw, hout, hdata])
        · rcases dv with _ | b | n | s | xs2 | dl
          · exact Or.inl (by simp [normalizeRaw, hout, hdata])
          · exact Or.inl (by simp [normalizeRaw, hout, hdata])
          · exact Or.inl (by simp [normalizeRaw, hout, hdata])
          · exact Or.inl (by simp [normalizeRaw, hout, hdata])
          · exact Or.inl (by simp [normalizeRaw, hout, hdata])
          · refine Or.inr ⟨fl, PayloadDict.top fl, ?_⟩
            simp [normalizeRaw, hout, hdata]
      · rcases hdata : JVal.lookup "data" fl with _ | dv
        · exact Or.inl (by simp [normalizeRaw, hout, hdata])
        · rcases dv with _ | b | n | s | xs2 | dl
          · exact Or.inl (by simp [normalizeRaw, hout, hdata])
          · exact Or.inl (by simp [normalizeRaw, hout, hdata])
          · exact Or.inl (by simp [normalizeRaw, hout, hdata])
          · exact Or.inl (by simp [normalizeRaw, hout, hdata])
          · exact Or.inl (by simp [normalizeRaw, hout, hdata])
          · refine Or.inr ⟨fl, PayloadDict.top fl, ?_⟩
            simp [normalizeRaw, hout, hdata]
      · rcases hdata : JVal.lookup "data" fl with _ | dv
        · exact Or.inl (by simp [normalizeRaw, hout, hdata])
        · rcases dv with _ | b | n | s | xs2 | dl
          · exact Or.inl (by simp [normalizeRaw, hout, hdata])
          · exact Or.inl (by simp [normalizeRaw, hout, hdata])
          · exact Or.inl (by simp [normalizeRaw, hout, hdata])
          · exact Or.inl (by simp [normalizeRaw, hout, hdata])
          · exact Or.inl (by simp [normalizeRaw, hout, hdata])
          · refine Or.inr ⟨fl, PayloadDict.top fl, ?_⟩
            simp [normalizeRaw, hout, hdata]
      · rcases hdata : JVal.lookup "data" fl with _ | dv
        · exact Or.inl (by simp [normalizeRaw, hout, hdata])
        · rcases dv with _ | b | n | s | xs3 | dl
          · exact Or.inl (by simp [normalizeRaw, hout, hdata])
          · exact Or.inl (by simp [normalizeRaw, hout, hdata])
          · exact Or.inl (by simp [normalizeRaw, hout, hdata])
          · exact Or.inl (by simp [normalizeRaw, hout, hdata])
          · exact Or.inl (by simp [normalizeRaw, hout, hdata])
          · refine Or.inr ⟨fl, PayloadDict.top fl, ?_⟩
            simp [normalizeRaw, hout, hdata]
      · refine Or.inr ⟨ofl, PayloadDict.outputOfTop fl ofl hout, ?_⟩
        simp [normalizeRaw, hout]

/-!
## Claim theorems
-/

/-- C4: every `ProcessingJob` processed via `process_with_job` (or the
background thread around it) ends in a status drawn from
{pending, processing, completed, failed} — in fact in a terminal one:
`mark_completed()` after the Q&A pairs are saved, or `mark_failed(error)`
together with a returned dict whose `success` is false when any step
raises. -/
theorem job_terminal_transitions (job : Job) (outcome : JobOutcome)
    (critical : Option String) :
    ((processWithJob job outcome).1.status = "completed" ∧
       (processWithJob job outcome).2.success = true ∨
     (processWithJob job outcome).1.status = "failed" ∧
       (processWithJob job outcome).2.success = false) ∧
    (processWithJob job outcome).1.status ∈ jobStatusValues ∧
    (∀ m, outcome = .raised m →
      (processWithJob job outcome).1.status = "failed" ∧
      (processWithJob job outcome).1.errorMessage = m ∧
      (processWithJob job outcome).2.success = false ∧
      (processWithJob job outcome).2.error = some m) ∧
    ((processJobThread job critical outcome).status = "completed" ∨
     (processJobThread job critical outcome).status = "failed") := by
  rcases outcome with n | m <;>
    rcases critical with _ | c <;>
      simp [processWithJob, processJobThread, markCompleted, markFailed, jobStatusValues]

/-- C4 witness: a job whose pipeline raises ends `failed` with the
error recorded and `success` false. -/
theorem job_terminal_transitions_witness :
    (processWithJob ⟨"pending", "", false⟩ (.raised "boom")).1.status = "failed" ∧
    (processWithJob ⟨"pending", "", false⟩ (.raised "boom")).1.errorMessage = "boom" ∧
    (processWithJob ⟨"pending", "", false⟩ (.raised "boom")).2.success = false ∧
    (processWithJob ⟨"pending", "", false⟩ (.raised "boom")).2.error = some "boom" :=
  (job_terminal_transitions ⟨"pending", "", false⟩ (.raised "boom") none).2.2.1 "boom" rfl

/-- C5: for an exam session with a valid index, navigation keeps
`0 ≤ current_question_index ≤ len(questions_order) - 1`; `next`
increments by exactly one exactly when the index is below the last
position, and `previous` decrements by exactly one exactly when the
index is positive and navigation is allowed. -/
theorem exam_navigation_invariant (s : ExamSession) (a : String)
    (hlo : 0 ≤ s.currentQuestionIndex)
    (hhi : s.currentQuestionIndex ≤ (s.questionsOrder.length : Int) - 1) :
    (0 ≤ (examNavigate s a).currentQuestionIndex ∧
      (examNavigate s a).currentQuestionIndex ≤ (s.questionsOrder.length : Int) - 1) ∧
    ((examNavigate s a).currentQuestionIndex = s.currentQuestionIndex + 1 ↔
      a = "next" ∧ s.currentQuestionIndex < (s.questionsOrder.length : Int) - 1) ∧
    ((examNavigate s a).currentQuestionIndex = s.currentQuestionIndex - 1 ↔
      a = "previous" ∧ 0 < s.currentQuestionIndex ∧ s.allowNavigation = true) := by
  have hchar : (examNavigate s a).currentQuestionIndex =
      (if a = "next" ∧ s.currentQuestionIndex < (s.questionsOrder.length : Int) - 1
       then s.currentQuestionIndex + 1
       else if a = "previous" ∧ 0 < s.currentQuestionIndex ∧ s.allowNavigation = true
       then s.currentQuestionIndex - 1
       else s.currentQuestionIndex) := by
    unfold examNavigate
    split_ifs with h1 h2 h3 <;> simp_all [calculateScore]
  refine ⟨?_, ?_, ?_⟩
  · rw [hchar]
    split_ifs with h1 h2
    · obtain ⟨-, hlt⟩ := h1
      exact ⟨by omega, by omega⟩
    · obtain ⟨-, hpos, -⟩ := h2
      exact ⟨by omega, by omega⟩
    · exact ⟨hlo, hhi⟩
  · rw [hchar]
    split_ifs with h1 h2
    · exact iff_of_true rfl h1
    · exact iff_of_false (by omega) h1
    · exact iff_of_false (by omega) h1
  · rw [hchar]
    split_ifs with h1 h2
    · obtain ⟨ha, -⟩ := h1
      subst ha
      refine iff_of_false (by omega) ?_
      rintro ⟨hp, -, -⟩
      exact absurd hp (by decide)
    · exact iff_of_true rfl h2
    · exact iff_of_false (by omega) h2

/-- C5 witness: concrete two-question active session, `next` action. -/
theorem exam_navigation_invariant_witness :
    (0 ≤ (examNavigate ⟨"active", 0, [10, 20], true, false, false⟩ "next").currentQuestionIndex ∧
      (examNavigate ⟨"active", 0, [10, 20], true, false, false⟩ "next").currentQuestionIndex ≤
        (([10, 20] : List Int).length : Int) - 1) ∧
    ((examNavigate ⟨"active", 0, [10, 20], true, false, false⟩ "next").currentQuestionIndex =
        0 + 1 ↔ "next" = "next" ∧ (0 : Int) < (([10, 20] : List Int).length : Int) - 1) ∧
    ((examNavigate ⟨"active", 0, [10, 20], true, false, false⟩ "next").currentQuestionIndex =
        0 - 1 ↔ "next" = "previous" ∧ (0 : Int) < 0 ∧ true = true) :=
  exam_navigation_invariant ⟨"active", 0, [10, 20], true, false, false⟩ "next"
    (by norm_num) (by norm_num)

/-- C6: an active exam session whose time limit has elapsed is not
served another question: the view marks it `expired`, stamps
`completed_at`, computes the score, and redirects to the result page. -/
theorem expired_exam_redirects (s : ExamSession) (h : s.status = "active") :
    (examSessionGet s true).1 = .redirectResult ∧
    (examSessionGet s true).2.status = "expired" ∧
    (examSessionGet s true).2.completedAtSet = true ∧
    (examSessionGet s true).2.scoreComputed = true ∧
    ∀ q, (examSessionGet s true).1 ≠ .renderQuestion q := by
  simp [examSessionGet, calculateScore, h]

/-- C6 witness: a concrete active expired session. -/
theorem expired_exam_redirects_witness :
    (examSessionGet ⟨"active", 0, [5], true, false, false⟩ true).1 = .redirectResult ∧
    (examSessionGet ⟨"active", 0, [5], true, false, false⟩ true).2.status = "expired" ∧
    (examSessionGet ⟨"active", 0, [5], true, false, false⟩ true).2.completedAtSet = true ∧
    (examSessionGet ⟨"active", 0, [5], true, false, false⟩ true).2.scoreComputed = true ∧
    ∀ q, (examSessionGet ⟨"active", 0, [5], true, false, false⟩ true).1 ≠ .renderQuestion q :=
  expired_exam_redirects ⟨"active", 0, [5], true, false, false⟩ rfl

/-- C7 counterexample: advancing a flashcard session past its last card
moves it from `active` to `completed` with `completed_at` set, yet no
score is ever computed — refuting the claim that every such transition
computes the session's score. -/
theorem flashcard_completion_unscored :
    (advanceFlashcard ⟨"active", 0, [7], 0, false, false⟩).status = "completed" ∧
    (advanceFlashcard ⟨"active", 0, [7], 0, false, false⟩).completedAtSet = true ∧
    (advanceFlashcard ⟨"active", 0, [7], 0, false, false⟩).scoreComputed = false := by
  refine ⟨?_, ?_, ?_⟩ <;> rfl

/-- C7 (amended): every `ExamSession` transition out of `active` into
`completed` (or `expired`) sets `completed_at` and computes the score
before saving; `FlashcardSession` transitions into `completed` set
`completed_at` but compute no score. -/
theorem scored_on_completion (s : ExamSession) (a : String) (e : Bool)
    (f : FlashcardSession) (hs : s.status = "active") (hf : f.status = "active") :
    ((examNavigate s a).status = "completed" →
      (examNavigate s a).completedAtSet = true ∧
      (examNavigate s a).scoreComputed = true) ∧
    ((submitExam s).status = "completed" →
      (submitExam s).completedAtSet = true ∧ (submitExam s).scoreComputed = true) ∧
    ((examSessionGet s e).2.status = "completed" ∨
        (examSessionGet s e).2.status = "expired" →
      (examSessionGet s e).2.completedAtSet = true ∧
      (examSessionGet s e).2.scoreComputed = true) ∧
    ((advanceFlashcard f).status = "completed" →
      (advanceFlashcard f).completedAtSet = true ∧
      (advanceFlashcard f).scoreComputed = f.scoreComputed) ∧
    ((flashcardSessionGet f).2.status = "completed" →
      (flashcardSessionGet f).2.completedAtSet = true ∧
      (flashcardSessionGet f).2.scoreComputed = f.scoreComputed) := by
  refine ⟨?_, ?_, ?_, ?_, ?_⟩
  · unfold examNavigate
    split_ifs <;> simp [calculateScore, hs]
  · unfold submitExam
    split_ifs
    all_goals simp [calculateScore, hs]
  · unfold examSessionGet
    split_ifs <;> simp [calculateScore, hs]
  · unfold advanceFlashcard
    dsimp only
    split_ifs <;> simp [hf]
  · unfold flashcardSessionGet
    split_ifs <;> simp [hf]

/-- C7 (amended) witness: a concrete active exam session submitted, and
a concrete flashcard session advanced past its last card. -/
theorem scored_on_completion_witness :
    ((examNavigate ⟨"active", 0, [3], true, false, false⟩ "submit").completedAtSet = true ∧
      (examNavigate ⟨"active", 0, [3], true, false, false⟩ "submit").scoreComputed = true) ∧
    ((advanceFlashcard ⟨"active", 0, [7], 0, false, false⟩).completedAtSet = true ∧
      (advanceFlashcard ⟨"active", 0, [7], 0, false, false⟩).scoreComputed = false) :=
  ⟨(scored_on_completion ⟨"active", 0, [3], true, false, false⟩ "submit" false
      ⟨"active", 0, [7], 0, false, false⟩ rfl rfl).1 (by simp [examNavigate, calculateScore]),
   (scored_on_completion ⟨"active", 0, [3], true, false, false⟩ "submit" false
      ⟨"active", 0, [7], 0, false, false⟩ rfl rfl).2.2.2.1 (by simp [advanceFlashcard])⟩

/-- C8: for a completed job with at least one Q&A pair and a shuffle
producing a permutation of the ids, `start_exam` creates a session
whose `questions_order` is a permutation of the ids, whose
`total_questions` is their number, and whose `time_limit_minutes` is
that number times `default_time_per_question_minutes`; likewise
`start_flashcard` for `cards_order`/`total_cards`. -/
theorem start_sessions_shuffled (jobStatus : String) (qaIds shuffled : List Int)
    (cfg : ExamConfig) (hs : jobStatus = "completed") (hne : qaIds ≠ [])
    (hperm : shuffled.Perm qaIds) :
    (∃ c, startExam jobStatus qaIds shuffled cfg = some c ∧
      c.questionsOrder.Perm qaIds ∧
      c.totalQuestions = qaIds.length ∧
      c.timeLimitMinutes = qaIds.length * cfg.defaultTimePerQuestionMinutes ∧
      c.allowNavigation = cfg.allowQuestionNavigation) ∧
    (∃ f, startFlashcard jobStatus qaIds shuffled cfg = some f ∧
      f.cardsOrder.Perm qaIds ∧
      f.totalCards = qaIds.length ∧
      f.timePerCardSeconds = cfg.defaultFlashcardTimeSeconds) := by
  subst hs
  have hlen : shuffled.length = qaIds.length := hperm.length_eq
  have hemp : qaIds.isEmpty = false := by
    cases qaIds with
    | nil => exact absurd rfl hne
    | cons x xs => rfl
  constructor
  · refine ⟨⟨shuffled.length, shuffled.length * cfg.defaultTimePerQuestionMinutes,
        cfg.allowQuestionNavigation, shuffled⟩, ?_, hperm, hlen, ?_, rfl⟩
    · simp [startExam, hemp]
    · rw [hlen]
  · refine ⟨⟨shuffled.length, cfg.defaultFlashcardTimeSeconds,
        cfg.autoAdvanceFlashcards, shuffled⟩, ?_, hperm, hlen, rfl⟩
    simp [startFlashcard, hemp]

/-- C8 witness: ids `[1, 2]` shuffled to `[2, 1]`. -/
theorem start_sessions_shuffled_witness :
    (∃ c, startExam "completed" [1, 2] [2, 1] ⟨2, true, 30, false⟩ = some c ∧
      c.questionsOrder.Perm [1, 2] ∧
      c.totalQuestions = ([1, 2] : List Int).length ∧
      c.timeLimitMinutes = ([1, 2] : List Int).length * 2 ∧
      c.allowNavigation = true) ∧
    (∃ f, startFlashcard "completed" [1, 2] [2, 1] ⟨2, true, 30, false⟩ = some f ∧
      f.cardsOrder.Perm [1, 2] ∧
      f.totalCards = ([1, 2] : List Int).length ∧
      f.timePerCardSeconds = 30) :=
  start_sessions_shuffled "completed" [1, 2] [2, 1] ⟨2, true, 30, false⟩ rfl
    (by simp) (by decide)

/-- C9: `store_evaluation_result` records `question_index` as the first
position of `q_id` in the session's `questions_order` when the received
value is an element of that list, and silently 0 otherwise — in
particular always 0 when `q_id` arrives as a JSON string while
`questions_order` stores integers. -/
theorem store_eval_question_index_spec (n : Int) (qid : JVal) (str : String)
    (order : List Int) (hmem : n ∈ order) :
    (order.get? (storeEvalQuestionIndex (jnum n) order) = some n ∧
      ∀ j < storeEvalQuestionIndex (jnum n) order, order.get? j ≠ some n) ∧
    ((∀ x ∈ order, pyEqInt qid x = false) → storeEvalQuestionIndex qid order = 0) ∧
    storeEvalQuestionIndex (jstr str) order = 0 := by
  refine ⟨?_, ?_, ?_⟩
  · have hguard : order.any (fun x => pyEqInt (jnum n) x) = true := by
      rw [List.any_eq_true]
      exact ⟨n, hmem, by simp [pyEqInt]⟩
    have hval : storeEvalQuestionIndex (jnum n) order = order.indexOf n := by
      simp [storeEvalQuestionIndex, hguard, pyToInt]
    rw [hval]
    exact indexOf_first_occurrence hmem
  · intro hall
    have hguard : order.any (fun x => pyEqInt qid x) = false := by
      rw [List.any_eq_false]
      intro x hx
      simp [hall x hx]
    simp [storeEvalQuestionIndex, hguard]
  · have hguard : order.any (fun x => pyEqInt (jstr str) x) = false := by
      rw [List.any_eq_false]
      intro x _
      simp [pyEqInt]
    simp [storeEvalQuestionIndex, hguard]

/-- C3: `_make_request` makes at most `API_CONFIG['max_retries']` (3)
attempts; when every attempt raises, it retries after sleeping
`retry_delay * (attempt + 1)` until the final attempt and then returns
a dict with `success` false and an error message (`Request timeout`,
`Connection error`, or the exception text) instead of raising. -/
theorem retry_loop_bounded (outcomes : Nat → AttemptOutcome) :
    maxRetries = 3 ∧
    (makeRequestModel outcomes).attemptsMade ≤ maxRetries ∧
    ((∀ i, i < maxRetries → (outcomes i).isExceptional = true) →
      (makeRequestModel outcomes).attemptsMade = maxRetries ∧
      (makeRequestModel outcomes).success = false ∧
      (makeRequestModel outcomes).error =
        some ((outcomes (maxRetries - 1)).errorText) ∧
      ((outcomes (maxRetries - 1)).errorText = "Request timeout" ∨
       (outcomes (maxRetries - 1)).errorText = "Connection error" ∨
       ∃ m, outcomes (maxRetries - 1) = .exc m ∧
         (outcomes (maxRetries - 1)).errorText = m) ∧
      (makeRequestModel outcomes).sleeps =
        [retryDelay * (0 + 1), retryDelay * (1 + 1)]) := by
  refine ⟨rfl, ?_, ?_⟩
  · simpa using runAttempts_attempts_le outcomes maxRetries 0 []
  · intro h
    have h0 := h 0 (by decide)
    have h1 := h 1 (by decide)
    have h2 := h 2 (by decide)
    rcases ho0 : outcomes 0 with _ | _ | m0 | ⟨s0, b0, t0⟩ <;>
      rcases ho1 : outcomes 1 with _ | _ | m1 | ⟨s1, b1, t1⟩ <;>
        rcases ho2 : outcomes 2 with _ | _ | m2 | ⟨s2, b2, t2⟩ <;>
          simp_all [makeRequestModel, runAttempts, maxRetries, retryDelay,
            AttemptOutcome.isExceptional, AttemptOutcome.errorText]

/-- C3 witness: three consecutive timeouts. -/
theorem retry_loop_bounded_witness :
    (makeRequestModel (fun _ => AttemptOutcome.timeout)).attemptsMade = maxRetries ∧
    (makeRequestModel (fun _ => AttemptOutcome.timeout)).success = false ∧
    (makeRequestModel (fun _ => AttemptOutcome.timeout)).error =
      some ((AttemptOutcome.timeout).errorText) ∧
    (makeRequestModel (fun _ => AttemptOutcome.timeout)).sleeps =
      [retryDelay * (0 + 1), retryDelay * (1 + 1)] := by
  obtain ⟨hm, hs, he, -, hsl⟩ :=
    (retry_loop_bounded (fun _ => AttemptOutcome.timeout)).2.2 (fun i _ => rfl)
  exact ⟨hm, hs, he, hsl⟩

/-- C1: a 200 response in any of the three documented n8n shapes is
normalized to a result whose `data` is the inner dict holding the
questions list and whose `success` equals the payload's success flag,
defaulting to true when absent. -/
theorem make_request_doc_shapes (raw : Option JVal) (d : List (String × JVal))
    (sf : Option Bool) (h : docShape raw d sf) :
    makeRequest200 raw = ⟨sf.getD true, jobj d⟩ := by
  rcases h with ⟨fl, hraw, hout, hdata, -, hsucc⟩ |
    ⟨fl, ofl, rest, hraw, hout, hdata, -, hsucc⟩ |
    ⟨hraw, hsf, -, hout, hdata, hsucc⟩
  · subst hraw
    cases sf <;> simp [makeRequest200, normalizeRaw, hout, hdata, hsucc, JVal.truthy]
  · subst hraw
    have hie : ofl.isEmpty = false := by
      cases ofl with
      | nil => simp [JVal.lookup] at hdata
      | cons p ps => rfl
    cases sf <;>
      simp [makeRequest200, normalizeRaw, hout, hie, hdata, hsucc, JVal.truthy]
  · subst hraw
    subst hsf
    simp [makeRequest200, normalizeRaw, hout, hdata, hsucc, JVal.truthy]

/-- C1 witness: shape (1) with an explicit false success flag. -/
theorem make_request_doc_shapes_witness :
    makeRequest200 (some (jobj [("success", jbool false),
        ("data", jobj [("questions", jarr [])])])) =
      ⟨false, jobj [("questions", jarr [])]⟩ :=
  make_request_doc_shapes _ [("questions", jarr [])] (some false)
    (Or.inl ⟨[("success", jbool false), ("data", jobj [("questions", jarr [])])],
      rfl, rfl, rfl, rfl, rfl⟩)

/-- C10: a 200 response whose body is not JSON or cannot be normalized
into a dict (bare string, number, empty list, list with non-dict head)
still yields `success` true with the fallback `{'raw': raw}` data; a
200 response yields `success` false only when a falsy `success` flag
sits inside the payload. -/
theorem make_request_fallback (raw : Option JVal) :
    (nonNormalizableExample raw →
      makeRequest200 raw = ⟨true, jobj [("raw", rawAsJVal raw)]⟩) ∧
    ((makeRequest200 raw).success = false → successFlagFalsy raw) := by
  constructor
  · rintro (rfl | ⟨s, rfl⟩ | ⟨n, rfl⟩ | rfl | ⟨x, xs, rfl, hx⟩)
    · rfl
    · rfl
    · rfl
    · rfl
    · cases x <;>
        simp_all [makeRequest200, normalizeRaw, rawAsJVal, JVal.isObj, JVal.truthy]
  · intro hfail
    rcases normalizeRaw_success_source raw with h | ⟨fs, hp, h⟩
    · rw [makeRequest200] at hfail
      simp only [h, JVal.truthy] at hfail
      exact absurd hfail (by decide)
    · rw [makeRequest200] at hfail
      simp only [h] at hfail
      rcases hsucc : JVal.lookup "success" fs with _ | v
      · rw [hsucc] at hfail
        simp [JVal.truthy] at hfail
      · rw [hsucc] at hfail
        exact ⟨fs, v, hp, hsucc, by simpa using hfail⟩

/-- C2: when the question list is reachable under any of the accepted
keys (`questions`, `qa_pairs`, `results.questions`, the `output`
wrapper being unwrapped first, or the fallback scan) and its items are
dicts, `_extract_qa_pairs` returns exactly one normalized Q&A dict per
item with non-empty question text, skipping every item whose question
text is empty. -/
theorem extract_qa_pairs_filters (apiData : List (String × JVal))
    (items : List (List (String × JVal))) (h : questionsReachable apiData items) :
    extractQaPairs apiData =
      (items.filter (fun fl => (itemQuestion fl).truthy)).map normalizeItem ∧
    ∀ qa ∈ extractQaPairs apiData, qa.question.truthy = true := by
  have hfind : findQuestionsVal (unwrapOutput apiData) = some (jarr (items.map jobj)) := by
    rcases h with h1 | ⟨hq, h2⟩ | ⟨hq, hqp, rl, hres, hrq⟩ | ⟨hq, hqp, hres, hscan⟩
    · simp [findQuestionsVal, h1]
    · simp [findQuestionsVal, hq, h2]
    · simp [findQuestionsVal, hq, hqp, hres, hrq]
    · rcases hres with hnone | ⟨rl, hres2, hrq⟩
      · simp [findQuestionsVal, hq, hqp, hnone, hscan]
      · simp [findQuestionsVal, hq, hqp, hres2, hrq, hscan]
  have hmain : extractQaPairs apiData =
      (items.filter (fun fl => (itemQuestion fl).truthy)).map normalizeItem := by
    simp [extractQaPairs, hfind, processItems_map_jobj]
  refine ⟨hmain, ?_⟩
  intro qa hqa
  rw [hmain] at hqa
  simp only [List.mem_map] at hqa
  obtain ⟨fl, hfl, rfl⟩ := hqa
  have hq := (List.mem_filter.mp hfl).2
  simpa [normalizeItem] using hq

/-- C2 witness: a `questions` payload with one real item and one whose
question text is empty; only the first survives. -/
theorem extract_qa_pairs_filters_witness :
    extractQaPairs [("questions", jarr [jobj [("question", jstr "Q1"), ("answer", jstr "A1")],
        jobj [("question", jstr "")]])] =
      ([[("question", jstr "Q1"), ("answer", jstr "A1")], [("question", jstr "")]].filter
        (fun fl => (itemQuestion fl).truthy)).map normalizeItem ∧
    ∀ qa ∈ extractQaPairs [("questions", jarr [jobj [("question", jstr "Q1"),
        ("answer", jstr "A1")], jobj [("question", jstr "")]])],
      qa.question.truthy = true :=
  extract_qa_pairs_filters
    [("questions", jarr [jobj [("question", jstr "Q1"), ("answer", jstr "A1")],
      jobj [("question", jstr "")]])]
    [[("question", jstr "Q1"), ("answer", jstr "A1")], [("question", jstr "")]]
    (Or.inl rfl)

/-- C10 witness: a bare-string 200 body falls back to `{'raw': raw}`
with success true. -/
theorem make_request_fallback_witness :
    makeRequest200 (some (jstr "oops")) =
      ⟨true, jobj [("raw", jstr "oops")]⟩ :=
  (make_request_fallback (some (jstr "oops"))).1 (Or.inr (Or.inl ⟨"oops", rfl⟩))

/-- C9 witness: id 20 in `[10, 20]`, and the string form of an id. -/
theorem store_eval_question_index_spec_witness :
    (([10, 20] : List Int).get? (storeEvalQuestionIndex (jnum 20) [10, 20]) = some 20 ∧
      ∀ j < storeEvalQuestionIndex (jnum 20) [10, 20],
        ([10, 20] : List Int).get? j ≠ some 20) ∧
    ((∀ x ∈ ([10, 20] : List Int), pyEqInt (jstr "20") x = false) →
      storeEvalQuestionIndex (jstr "20") [10, 20] = 0) ∧
    storeEvalQuestionIndex (jstr "20") [10, 20] = 0 :=
  store_eval_question_index_spec 20 (jstr "20") "20" [10, 20] (by decide)

end Sisimpur
